import Mathlib

/-!
Verification of the identity-and-consistency core of a URL-shortener backend.

The development shallowly embeds four pieces of the Python source:

* the base-62 codec (`src/backend/app/services/backhalf_alias/base62.py`),
* the snowflake-style id generator
  (`src/backend/app/services/backhalf_alias/snowflake_generator.py`),
* the click counter buffer (`src/backend/app/routes/url_router.py` together
  with `src/backend/app/repositories/CassandraClickRepo.py` and the redis
  helpers in `src/backend/app/services/redis.py`),
* the session validation path (`src/backend/app/services/auth_utils.py`).

Pure functions become Lean functions; stateful code threads an explicit
world record; Python exceptions become `Except` errors or `Option` failures.
-/

namespace UrlShortener

/-! ## Base-62 codec — base62.py -/

/-- `base = 62` from base62.py. -/
def base : Nat := 62

/-- The 62-character alphabet string from base62.py, as its character list
(digits, uppercase, lowercase, in that digit-value order). -/
def character_set : List Char :=
  "0123456789ABCDEFGHIJKLMNOPQRSTUVWXYZabcdefghijklmnopqrstuvwxyz".toList

/-- Index of a character in a character list.  The `character_to_value`
dictionary in base62.py maps each alphabet character to its index in
`character_set`; looking up any other character raises `KeyError`, modelled
here by `none`. -/
def charIndex : List Char → Char → Option Nat
  | [], _ => none
  | a :: rest, c => if c = a then some 0 else Option.map Nat.succ (charIndex rest c)

/-- The `character_to_value` dictionary lookup from base62.py. -/
def character_to_value (c : Char) : Option Nat :=
  charIndex character_set c

/-- The `while num > 0` loop of `encode_base_62`: peel off `num % base` as the
next (more significant) character and continue with `num // base`, prepending
to the accumulator exactly as the Python loop prepends to `encoded_str`.
The first argument is structural fuel bounding the number of iterations; the
loop strictly decreases `num`, so `num + 1` units always suffice (the same
device core Lean uses for `Nat.toDigitsCore`). -/
def encode_digits : Nat → Nat → List Char → List Char
  | 0, _, acc => acc
  | fuel + 1, num, acc =>
    if num = 0 then acc
    else encode_digits fuel (num / base) (character_set.getD (num % base) ' ' :: acc)

/-- `encode_base_62` from base62.py: `"0"` for zero, otherwise the digit
string produced by the div/mod loop. -/
def encode_base_62 (num : Nat) : String :=
  if num = 0 then "0" else String.mk (encode_digits (num + 1) num [])

/-- The loop of `decode_base_62`: iterate over the reversed character list
with a running index, adding `value * base ^ index` for each character; a
character outside the alphabet fails the whole computation (Python raises
`KeyError` from the dictionary lookup). -/
def decode_digits : List Char → Nat → Option Nat
  | [], _ => some 0
  | c :: rest, index =>
    match character_to_value c, decode_digits rest (index + 1) with
    | some v, some total => some (v * base ^ index + total)
    | _, _ => none

/-- `decode_base_62` from base62.py: run the loop over `reversed(str)`
starting at index 0. -/
def decode_base_62 (s : String) : Option Nat :=
  decode_digits s.toList.reverse 0

example : encode_base_62 0 = "0" := by decide
example : encode_base_62 62 = "10" := by decide
example : decode_base_62 "10" = some 62 := by decide
example : decode_base_62 "" = some 0 := by decide
example : decode_base_62 "a!b" = none := by decide

/-! ### Codec lemmas -/

theorem encode_digits_zero (fuel : Nat) (acc : List Char) :
    encode_digits fuel 0 acc = acc := by
  cases fuel <;> rfl

theorem encode_digits_append (fuel : Nat) :
    ∀ num acc, encode_digits fuel num acc = encode_digits fuel num [] ++ acc := by
  induction fuel with
  | zero => intro num acc; rfl
  | succ fuel ih =>
    intro num acc
    by_cases h : num = 0
    · simp [encode_digits, h]
    · simp only [encode_digits, if_neg h]
      rw [ih (num / base) (character_set.getD (num % base) ' ' :: acc),
        ih (num / base) [character_set.getD (num % base) ' ']]
      simp

theorem decode_digits_succ (l : List Char) :
    ∀ index, decode_digits l (index + 1) = Option.map (· * base) (decode_digits l index) := by
  induction l with
  | nil => intro index; simp [decode_digits]
  | cons c rest ih =>
    intro index
    simp only [decode_digits, ih (index + 1)]
    cases hv : character_to_value c <;> cases ht : decode_digits rest (index + 1) <;>
      simp [hv, ht, pow_succ]
    ring

theorem decode_digits_snoc (l : List Char) (c : Char) :
    decode_digits (l ++ [c]).reverse 0 =
      match character_to_value c, decode_digits l.reverse 0 with
      | some v, some total => some (total * base + v)
      | _, _ => none := by
  rw [List.reverse_append]
  simp only [List.reverse_cons, List.reverse_nil, List.nil_append, List.singleton_append]
  simp only [decode_digits, decode_digits_succ]
  cases hv : character_to_value c <;> cases ht : decode_digits l.reverse 0 <;>
    simp [hv, ht]
  ring

theorem character_to_value_getD :
    ∀ d, d < base → character_to_value (character_set.getD d ' ') = some d := by
  decide

theorem character_set_getD_ne_zero_char :
    ∀ d, d < base → 0 < d → character_set.getD d ' ' ≠ '0' := by
  decide

theorem charIndex_eq_none (l : List Char) (c : Char) :
    charIndex l c = none ↔ ¬ c ∈ l := by
  induction l with
  | nil => simp [charIndex]
  | cons a rest ih =>
    by_cases h : c = a
    · simp [charIndex, h]
    · simp [charIndex, h, ih]

theorem decode_encode_digits :
    ∀ fuel num, 0 < num → num ≤ fuel →
      decode_digits (encode_digits fuel num []).reverse 0 = some num := by
  intro fuel
  induction fuel with
  | zero => intro num h1 h2; omega
  | succ fuel ih =>
    intro num h1 h2
    have hnz : num ≠ 0 := by omega
    simp only [encode_digits, if_neg hnz]
    rw [encode_digits_append, decode_digits_snoc]
    by_cases hq : num / base = 0
    · have hlt : num < base := by
        by_contra hge
        have : num / base ≠ 0 := (Nat.div_ne_zero_iff (by decide)).mpr (by omega)
        exact this hq
      rw [hq, encode_digits_zero, Nat.mod_eq_of_lt hlt,
        character_to_value_getD num hlt]
      simp [decode_digits]
    · have hlt : num / base ≤ fuel := by
        have := Nat.div_lt_self h1 (by decide : 1 < base)
        omega
      rw [ih (num / base) (Nat.pos_of_ne_zero hq) hlt,
        character_to_value_getD (num % base) (Nat.mod_lt _ (by decide))]
      show some (num / base * base + num % base) = some num
      rw [mul_comm, Nat.div_add_mod]

theorem encode_digits_head :
    ∀ fuel num, 0 < num → num ≤ fuel →
      ∃ d, 0 < d ∧ d < base ∧
        (encode_digits fuel num []).head? = some (character_set.getD d ' ') := by
  intro fuel
  induction fuel with
  | zero => intro num h1 h2; omega
  | succ fuel ih =>
    intro num h1 h2
    have hnz : num ≠ 0 := by omega
    simp only [encode_digits, if_neg hnz]
    by_cases hq : num / base = 0
    · have hlt : num < base := by
        by_contra hge
        have : num / base ≠ 0 := (Nat.div_ne_zero_iff (by decide)).mpr (by omega)
        exact this hq
      rw [hq, encode_digits_zero, Nat.mod_eq_of_lt hlt]
      exact ⟨num, h1, hlt, rfl⟩
    · have hlt : num / base ≤ fuel := by
        have := Nat.div_lt_self h1 (by decide : 1 < base)
        omega
      obtain ⟨d, hd0, hdlt, hhead⟩ := ih (num / base) (Nat.pos_of_ne_zero hq) hlt
      rw [encode_digits_append]
      cases hl : encode_digits fuel (num / base) [] with
      | nil => rw [hl] at hhead; simp at hhead
      | cons e t =>
        rw [hl] at hhead
        exact ⟨d, hd0, hdlt, by simpa using hhead⟩

theorem decode_digits_isSome (l : List Char) :
    ∀ index, (decode_digits l index).isSome = true ↔ ∀ c ∈ l, c ∈ character_set := by
  induction l with
  | nil => intro index; simp [decode_digits]
  | cons c rest ih =>
    intro index
    simp only [decode_digits]
    cases hv : character_to_value c with
    | none =>
      have hmem : ¬ c ∈ character_set := (charIndex_eq_none character_set c).mp hv
      simp only [List.mem_cons]
      constructor
      · intro h; simp at h
      · intro h; exact absurd (h c (Or.inl rfl)) hmem
    | some v =>
      have hmem : c ∈ character_set := by
        by_contra hc
        rw [← charIndex_eq_none character_set c] at hc
        rw [character_to_value] at hv
        rw [hc] at hv
        cases hv
      cases ht : decode_digits rest (index + 1) with
      | none =>
        have := (not_iff_not.mpr (ih (index + 1))).mp (by simp [ht])
        simp only [List.mem_cons]
        constructor
        · intro h; simp at h
        · intro h
          exact this.elim (fun c' hc' => (h c' (Or.inr hc')))
      | some total =>
        have := (ih (index + 1)).mp (by simp [ht])
        simp only [List.mem_cons, Option.isSome_some, true_iff]
        intro c' hc'
        rcases hc' with h | h
        · exact h ▸ hmem
        · exact this c' h

/-! ### Codec theorems -/

/-- C4: for every 64-bit-representable `n`, `decode_base_62` inverts
`encode_base_62`; the encoding of zero is the one-character string `"0"`; and
for `n > 0` the encoding carries no leading-zero padding (its first character
is not `'0'`). -/
theorem base62_roundtrip (n : Nat) (h : n < 2 ^ 64) :
    decode_base_62 (encode_base_62 n) = some n ∧
      encode_base_62 0 = "0" ∧
      (0 < n → (encode_base_62 n).toList.head? ≠ some '0') := by
  refine ⟨?_, rfl, ?_⟩
  · by_cases hn : n = 0
    · subst hn; decide
    · have hrt := decode_encode_digits (n + 1) n (Nat.pos_of_ne_zero hn) (by omega)
      simpa [decode_base_62, encode_base_62, hn] using hrt
  · intro hn
    obtain ⟨d, hd0, hdlt, hhead⟩ :=
      encode_digits_head (n + 1) n hn (by omega)
    have hne : n ≠ 0 := by omega
    simp only [encode_base_62, if_neg hne]
    intro hcontra
    rw [show (String.mk (encode_digits (n + 1) n [])).toList
        = encode_digits (n + 1) n [] from rfl, hhead] at hcontra
    exact character_set_getD_ne_zero_char d hdlt hd0 (by simpa using hcontra)

/-- Witness for C4 at `n = 62`. -/
theorem base62_roundtrip_witness :
    decode_base_62 (encode_base_62 62) = some 62 ∧
      encode_base_62 0 = "0" ∧
      (encode_base_62 62).toList.head? ≠ some '0' := by
  have h := base62_roundtrip 62 (by decide)
  exact ⟨h.1, h.2.1, h.2.2 (by decide)⟩

/-- C9: `decode_base_62` succeeds exactly on the strings all of whose
characters lie in the fixed 62-character alphabet; any string containing a
character outside it (such as `"!"`) fails the dictionary lookup. -/
theorem decode_base_62_alphabet (s : String) :
    (∃ n, decode_base_62 s = some n) ↔ ∀ c ∈ s.toList, c ∈ character_set := by
  rw [← Option.isSome_iff_exists, decode_base_62,
    decode_digits_isSome s.toList.reverse 0]
  constructor
  · intro h c hc
    exact h c (List.mem_reverse.mpr hc)
  · intro h c hc
    exact h c (List.mem_reverse.mp hc)

/-- C10: `decode_base_62` accepts the empty string and returns 0 — the same
value as decoding `"0"` — while `encode_base_62` never produces the empty
string (every encoding has positive length), so decode accepts an input
encode never produces and is not injective on the strings it accepts. -/
theorem decode_base_62_empty_string :
    decode_base_62 "" = some 0 ∧
      decode_base_62 "0" = some 0 ∧
      ∀ n, 0 < (encode_base_62 n).length := by
  refine ⟨by decide, by decide, ?_⟩
  intro n
  by_cases hn : n = 0
  · subst hn; decide
  · obtain ⟨d, _, _, hhead⟩ :=
      encode_digits_head (n + 1) n (Nat.pos_of_ne_zero hn) (by omega)
    have hne2 : encode_digits (n + 1) n [] ≠ [] := by
      intro hnil
      rw [hnil] at hhead
      simp at hhead
    simp only [encode_base_62, if_neg hn]
    show 0 < (encode_digits (n + 1) n []).length
    exact List.length_pos.mpr hne2

/-! ## Snowflake id generator — snowflake_generator.py

The generator keeps `last_timestamp` (initially `-1`) and `sequence`
(initially `0`) behind a lock; `next_id` reads the wall clock in
milliseconds.  The embedding passes the clock reading `timestamp`
explicitly.  Two attribute accesses in `next_id` are decisive and are
embedded exactly as the source has them:

* line 146 evaluates `self.max_sequence_num`, an attribute that no code in
  the class ever assigns (the constructor sets `self.max_sequence`), so the
  `timestamp == last_timestamp` branch raises `AttributeError` before any
  state is mutated and before `_wait_next_millisecond` can be reached;
* line 151 executes `self.sequence_num = 0`, creating a fresh attribute
  `sequence_num` and leaving `self.sequence` untouched.
-/

inductive SnowflakeError
  | clock_moved_backwards (ms : Int)
  | attribute_error (missing : String)
deriving DecidableEq

structure SnowflakeGenerator where
  worker_id : Nat
  epoch : Int
  last_timestamp : Int
  sequence : Nat
  sequence_num : Option Nat
deriving DecidableEq

def worker_id_bits : Nat := 10

def sequence_bits : Nat := 12

def max_worker_id : Nat := (1 <<< worker_id_bits) - 1

def max_sequence : Nat := (1 <<< sequence_bits) - 1

def worker_id_shift : Nat := sequence_bits

def timestamp_shift : Nat := worker_id_bits + sequence_bits

/-- `SnowflakeGenerator.__init__`: `last_timestamp = -1`, `sequence = 0`, and
no `sequence_num` attribute exists yet. -/
def SnowflakeGenerator.init (worker_id : Nat) (epoch : Int) : SnowflakeGenerator :=
  ⟨worker_id, epoch, -1, 0, none⟩

/-- `SnowflakeGenerator.next_id` with the clock reading passed in.
In the `timestamp > last_timestamp` branch the composed id is
`((timestamp - epoch) << 22) | (worker_id << 12) | sequence`; since
`worker_id ≤ 1023` and `sequence ≤ 4095` in every state the source can
build, the fields occupy disjoint bit ranges and the bitwise ors equal the
additions used here (a left shift leaves the low bits zero). -/
def SnowflakeGenerator.next_id (g : SnowflakeGenerator) (timestamp : Int) :
    Except SnowflakeError (Int × SnowflakeGenerator) :=
  if timestamp < g.last_timestamp then
    .error (.clock_moved_backwards (g.last_timestamp - timestamp))
  else if timestamp = g.last_timestamp then
    .error (.attribute_error "max_sequence_num")
  else
    let g1 : SnowflakeGenerator :=
      { g with sequence_num := some 0, last_timestamp := timestamp }
    let snowflake_id : Int :=
      (timestamp - g.epoch) * 2 ^ timestamp_shift
        + ((g1.worker_id * 2 ^ worker_id_shift + g1.sequence : Nat) : Int)
    .ok (snowflake_id, g1)

/-- Sequential calls to `next_id` on one instance, one clock reading per
call, collecting the returned ids; the first raised exception aborts the
run exactly as it would propagate out of the Python call. -/
def SnowflakeGenerator.run (g : SnowflakeGenerator) :
    List Int → Except SnowflakeError (List Int)
  | [] => .ok []
  | t :: ts =>
    match g.next_id t with
    | .error e => .error e
    | .ok (id, g1) =>
      match g1.run ts with
      | .error e => .error e
      | .ok ids => .ok (id :: ids)

/-! ### Generator theorems -/

/-- C1: the code does not deliver pairwise-distinct, non-decreasing ids for
every sequential call pattern with a never-backward wall clock.  On a fresh
generator the first call at millisecond 1 succeeds, but a second sequential
call in the same millisecond (clock non-decreasing) raises `AttributeError`
for the undefined `max_sequence_num`, so two calls fail to yield two ids —
a fortiori 10,000 same-millisecond calls cannot yield 10,000 ids. -/
theorem snowflake_same_millisecond_run_fails :
    (SnowflakeGenerator.init 0 0).run [1] = .ok [4194304] ∧
      (SnowflakeGenerator.init 0 0).run [1, 1] =
        .error (.attribute_error "max_sequence_num") := by
  exact ⟨rfl, rfl⟩

/-- C2: in the `timestamp > last_timestamp` branch, `next_id` does not reset
the `sequence` field — line 151 assigns the unrelated attribute
`sequence_num` — so from a state with `sequence = 3` the call returns an id
whose low 12 bits are 3, not 0, and the state keeps `sequence = 3`. -/
theorem snowflake_new_millisecond_keeps_sequence :
    (SnowflakeGenerator.mk 0 0 10 3 none).next_id 11 =
        .ok (46137347, SnowflakeGenerator.mk 0 0 11 3 (some 0)) ∧
      (46137347 : Int) % 4096 = 3 ∧
      ¬ (46137347 : Int) % 4096 = 0 := by
  exact ⟨rfl, rfl, by decide⟩

/-- C3: every call made in the same millisecond as the previous one
(`timestamp == last_timestamp`) raises `AttributeError` on the undefined
attribute `max_sequence_num` instead of incrementing the sequence modulo
4096 or busy-polling the clock. -/
theorem snowflake_same_millisecond_attribute_error (g : SnowflakeGenerator) :
    g.next_id g.last_timestamp = .error (.attribute_error "max_sequence_num") := by
  simp [SnowflakeGenerator.next_id]

/-! ## Click counter buffer — url_router.py / redis.py / CassandraClickRepo.py

`update_clicks_and_redirect` increments the redis delta key
(`INCR`, creating it at 1 if absent), and once the returned count reaches
`settings.CLICK_THRESHOLD` it first deletes the cache key and then adds the
count to the Cassandra counter row (`UPDATE ... SET total_clicks =
total_clicks + ?`, which creates the row if missing).  The world record
holds the delta key and the counter row for the one alias of interest; each
call also returns the ordered list of store operations it performed, so the
delete-versus-durable-write ordering is observable. -/

inductive ClickEvent
  | cache_incr (new_count : Nat)
  | cache_delete
  | durable_write (delta : Nat)
deriving DecidableEq

structure ClickWorld where
  cache_delta : Option Nat
  durable_row : Option Nat
deriving DecidableEq

/-- `cache_increment_url_click` from redis.py: redis `INCR` returns the new
count, creating the key with value 1 when absent. -/
def cache_increment_url_click (w : ClickWorld) : Nat × ClickWorld :=
  let n := w.cache_delta.getD 0 + 1
  (n, { w with cache_delta := some n })

/-- `cache_delete_url_click` from redis.py: delete the delta key. -/
def cache_delete_url_click (w : ClickWorld) : ClickWorld :=
  { w with cache_delta := none }

/-- `cache_get_url_click` from redis.py: `int(result) if result else 0`. -/
def cache_get_url_click (w : ClickWorld) : Nat :=
  w.cache_delta.getD 0

/-- `CassandraClickRepo.update_url_clicks`: add `click_count` to the counter
row, creating the row when it does not exist. -/
def update_url_clicks (w : ClickWorld) (click_count : Nat) : ClickWorld :=
  { w with durable_row := some (w.durable_row.getD 0 + click_count) }

/-- `CassandraClickRepo.get_total_clicks`: the row's counter, or 0 when the
row is missing. -/
def get_total_clicks (w : ClickWorld) : Nat :=
  w.durable_row.getD 0

/-- `update_clicks_and_redirect` from url_router.py, with the configured
`settings.CLICK_THRESHOLD` passed in: increment the cache delta; if the new
count has reached the threshold, delete the cache key and only then write
the count to the durable counter.  The returned trace lists the operations
in source order. -/
def update_clicks_and_redirect (threshold : Nat) (w : ClickWorld) :
    ClickWorld × List ClickEvent :=
  let (click_count, w1) := cache_increment_url_click w
  if click_count ≥ threshold then
    let w2 := cache_delete_url_click w1
    let w3 := update_url_clicks w2 click_count
    (w3, [.cache_incr click_count, .cache_delete, .durable_write click_count])
  else
    (w1, [.cache_incr click_count])

/-- `n` sequential redirect requests for the same alias, concatenating the
operation traces. -/
def record_clicks (threshold : Nat) (w : ClickWorld) : Nat → ClickWorld × List ClickEvent
  | 0 => (w, [])
  | n + 1 =>
    let (w1, tr1) := update_clicks_and_redirect threshold w
    let (w2, tr2) := record_clicks threshold w1 n
    (w2, tr1 ++ tr2)

/-- Which events are durable counter writes. -/
def ClickEvent.is_durable_write : ClickEvent → Bool
  | .durable_write _ => true
  | _ => false

/-- Formalisation of the spec's ordering requirement, for comparison with
the code's trace: scanning the trace left to right, every cache-delete event
must be preceded by some durable write (the flag records whether a durable
write has been seen).  The source requirement reads: do not delete the cache
key until the durable flush is confirmed. -/
def delete_only_after_flush (flushed : Bool) : List ClickEvent → Bool
  | [] => true
  | .cache_delete :: rest => flushed && delete_only_after_flush flushed rest
  | .durable_write _ :: rest => delete_only_after_flush true rest
  | .cache_incr _ :: rest => delete_only_after_flush flushed rest

/-! ### Counter buffer theorems -/

/-- C5 counterexample: recording 5 clicks on a fresh alias with threshold 5
produces the trace whose fifth call deletes the cache key *before* the
durable write of the coalesced delta, so the spec's
durable-write-before-delete ordering is violated on this concrete run. -/
theorem click_flush_deletes_before_write :
    record_clicks 5 ⟨none, none⟩ 5 =
        (⟨none, some 5⟩,
          [.cache_incr 1, .cache_incr 2, .cache_incr 3, .cache_incr 4,
            .cache_incr 5, .cache_delete, .durable_write 5]) ∧
      delete_only_after_flush false
        [.cache_incr 1, .cache_incr 2, .cache_incr 3, .cache_incr 4,
          .cache_incr 5, .cache_delete, .durable_write 5] = false := by
  exact ⟨rfl, rfl⟩

/-- C5 amended: the cache key is deleted immediately *before* the durable
flush (not after); the rest of the claim holds as stated — 5 clicks on a
fresh alias with threshold 5 cause exactly one durable flush, of delta 5,
the cache delta is 0 afterwards, and `get_total_clicks` returns 5. -/
theorem click_threshold_flush :
    (record_clicks 5 ⟨none, none⟩ 5).2.filter ClickEvent.is_durable_write =
        [ClickEvent.durable_write 5] ∧
      cache_get_url_click (record_clicks 5 ⟨none, none⟩ 5).1 = 0 ∧
      get_total_clicks (record_clicks 5 ⟨none, none⟩ 5).1 = 5 ∧
      (update_clicks_and_redirect 5 ⟨some 4, none⟩).2 =
        [.cache_incr 5, .cache_delete, .durable_write 5] := by
  exact ⟨rfl, rfl, rfl, rfl⟩

/-! ## Session validation — auth_utils.py

`authenticate_request` reads the session cookie, does a cache lookup
(`cache_get_session`, an empty hash counting as a miss), and on a miss falls
back to `validate_session`, which reads the durable store, checks the two
expiry conditions with `check_session_expiration`, deletes the cookie and
the durable record for expired or unknown sessions, and catches every
exception (returning `None`).  Neither function writes to the cache.  The
world record holds the cache entry and durable record for the one token of
interest; `durable_up = false` models the durable read raising.  Timestamps
and lifetimes are integers in a common time unit; the configured lifetimes
(`settings.SESSION_ABSOLUTE_LIFETIME`, `settings.SESSION_IDLE_LIFETIME`)
are passed as parameters. -/

structure Session where
  user_id : Nat
  session_token : String
  created_at : Int
  last_active_at : Int
deriving DecidableEq

/-- `check_session_expiration` from auth_utils.py: absolute expiry is
checked first with `now > created_at + absolute_lifetime`, then idle expiry
with `now - last_active_at > idle_lifetime`; returns `(is_expired, reason)`. -/
def check_session_expiration (s : Session)
    (now absolute_lifetime idle_lifetime : Int) : Bool × String :=
  let expires_at := s.created_at + absolute_lifetime
  if now > expires_at then (true, "absolute")
  else if now - s.last_active_at > idle_lifetime then (true, "idle")
  else (false, "valid")

structure AuthWorld where
  cache : Option Session
  durable : Option Session
  durable_up : Bool
deriving DecidableEq

structure ValidateResult where
  session : Option Session
  world : AuthWorld
  cookie_deleted : Bool
  logged_reason : Option String
  error_caught : Bool
deriving DecidableEq

/-- `validate_session` from auth_utils.py.  The whole body sits in a
`try`/`except Exception` that logs and returns `None`, so a raising durable
read (`durable_up = false`) yields `session = none` with `error_caught`.
An unknown token deletes the cookie; an expired session deletes the cookie
and the durable record and logs the reason. -/
def validate_session (w : AuthWorld)
    (now absolute_lifetime idle_lifetime : Int) : ValidateResult :=
  if w.durable_up then
    match w.durable with
    | none => ⟨none, w, true, none, false⟩
    | some s =>
      match check_session_expiration s now absolute_lifetime idle_lifetime with
      | (true, reason) => ⟨none, { w with durable := none }, true, some reason, false⟩
      | (false, _) => ⟨some s, w, false, none, false⟩
  else
    ⟨none, w, false, none, true⟩

inductive AuthOutcome
  | http401 (detail : String)
  | ok (s : Session)
deriving DecidableEq

structure AuthResult where
  outcome : AuthOutcome
  world : AuthWorld
  cache_hit : Bool
deriving DecidableEq

/-- `authenticate_request` from auth_utils.py: 401 with no cookie; a
non-empty cache entry is used as-is (no expiry recomputation); on a cache
miss `validate_session` decides, and a `None` session is reported as the
401 "Invalid or expired session".  No path writes the cache. -/
def authenticate_request (cookie_token : Option String) (w : AuthWorld)
    (now absolute_lifetime idle_lifetime : Int) : AuthResult :=
  match cookie_token with
  | none => ⟨.http401 "Authentication failed: No session token provided", w, false⟩
  | some _ =>
    match w.cache with
    | some s => ⟨.ok s, w, true⟩
    | none =>
      let r := validate_session w now absolute_lifetime idle_lifetime
      match r.session with
      | none => ⟨.http401 "Invalid or expired session", r.world, false⟩
      | some s => ⟨.ok s, r.world, false⟩

/-! ### Session theorems -/

/-- C6 counterexample.  First input: durable-path validation at
`now - created_at = absolute_lifetime` (100 = 100) succeeds, although the
claim's strict condition `now - created_at < absolute_lifetime` fails.
Second input: a session whose idle lifetime has elapsed (50 - 0 > 30) but
whose cache copy still exists is accepted on the cache hit with no expiry
check, although the claim says validation fails with the idle reason
regardless of a surviving cache copy. -/
theorem session_validation_claim_fails :
    (authenticate_request (some "tok")
          ⟨none, some ⟨1, "tok", 0, 100⟩, true⟩ 100 100 30).outcome
        = .ok ⟨1, "tok", 0, 100⟩ ∧
      ¬ ((100 : Int) - 0 < 100) ∧
      (authenticate_request (some "tok")
          ⟨some ⟨2, "tok", 0, 0⟩, some ⟨2, "tok", 0, 0⟩, true⟩ 50 1000 30).outcome
        = .ok ⟨2, "tok", 0, 0⟩ ∧
      (30 : Int) < 50 - 0 := by
  exact ⟨rfl, by decide, rfl, by decide⟩

/-- C6 amended: on a cache miss with the durable store up, validation
succeeds iff `now ≤ created_at + absolute_lifetime` and
`now - last_active_at ≤ idle_lifetime` (both comparisons non-strict); when
only the idle condition is strictly violated it fails as the 401 with the
logged reason `"idle"` and deletes the durable record; when a cache copy
exists, validation succeeds with no expiry check at all. -/
theorem session_validation_amended (s : Session) (now absL idleL : Int) :
    ((authenticate_request (some s.session_token)
          ⟨none, some s, true⟩ now absL idleL).outcome = .ok s ↔
        now ≤ s.created_at + absL ∧ now - s.last_active_at ≤ idleL) ∧
      (now ≤ s.created_at + absL → idleL < now - s.last_active_at →
        (authenticate_request (some s.session_token)
            ⟨none, some s, true⟩ now absL idleL).outcome
          = .http401 "Invalid or expired session" ∧
        (validate_session ⟨none, some s, true⟩ now absL idleL).logged_reason
          = some "idle" ∧
        (validate_session ⟨none, some s, true⟩ now absL idleL).world.durable
          = none) ∧
      (authenticate_request (some s.session_token)
          ⟨some s, some s, true⟩ now absL idleL).outcome = .ok s := by
  refine ⟨?_, ?_, rfl⟩
  · by_cases h1 : now > s.created_at + absL
    · simp [authenticate_request, validate_session, check_session_expiration,
        if_pos h1]
      omega
    · by_cases h2 : now - s.last_active_at > idleL
      · simp [authenticate_request, validate_session, check_session_expiration,
          if_neg h1, if_pos h2]
        omega
      · simp [authenticate_request, validate_session, check_session_expiration,
          if_neg h1, if_neg h2]
        omega
  · intro h1 h2
    have hna : ¬ now > s.created_at + absL := by omega
    have hi : now - s.last_active_at > idleL := h2
    refine ⟨?_, ?_, ?_⟩ <;>
      simp [authenticate_request, validate_session, check_session_expiration,
        if_neg hna, if_pos hi]

/-- Witness for C6 amended at a session with idle time strictly elapsed. -/
theorem session_validation_amended_witness :
    (authenticate_request (some "tok")
          ⟨none, some ⟨1, "tok", 0, 0⟩, true⟩ 50 1000 30).outcome
        = .http401 "Invalid or expired session" ∧
      (validate_session ⟨none, some ⟨1, "tok", 0, 0⟩, true⟩ 50 1000 30).logged_reason
        = some "idle" := by
  have h := (session_validation_amended ⟨1, "tok", 0, 0⟩ 50 1000 30).2.1
    (by decide) (by decide)
  exact ⟨h.1, h.2.1⟩

/-- C7 counterexample: a cache miss on a still-valid session succeeds via
the durable fallback, but the cache entry afterwards is still absent — the
code never writes the session back to the cache, so a subsequent cache-only
read misses, contradicting the claimed repopulation. -/
theorem validate_session_no_cache_repopulation :
    (authenticate_request (some "tok")
          ⟨none, some ⟨1, "tok", 0, 0⟩, true⟩ 10 1000 100).outcome
        = .ok ⟨1, "tok", 0, 0⟩ ∧
      (authenticate_request (some "tok")
          ⟨none, some ⟨1, "tok", 0, 0⟩, true⟩ 10 1000 100).world.cache = none := by
  exact ⟨rfl, rfl⟩

/-- C7 amended: when validation of a still-valid session misses the cache,
the operation succeeds via the durable store and returns the session, but
the world is left unchanged — in particular the cache is not repopulated,
so a subsequent cache-only read of the token still misses. -/
theorem validate_durable_fallback_succeeds (s : Session) (now absL idleL : Int)
    (h1 : now ≤ s.created_at + absL) (h2 : now - s.last_active_at ≤ idleL) :
    (authenticate_request (some s.session_token)
          ⟨none, some s, true⟩ now absL idleL).outcome = .ok s ∧
      (authenticate_request (some s.session_token)
          ⟨none, some s, true⟩ now absL idleL).world = ⟨none, some s, true⟩ := by
  have hna : ¬ now > s.created_at + absL := by omega
  have hni : ¬ now - s.last_active_at > idleL := by omega
  constructor <;>
    simp [authenticate_request, validate_session, check_session_expiration,
      if_neg hna, if_neg hni]

/-- Witness for C7 amended on a fresh session. -/
theorem validate_durable_fallback_succeeds_witness :
    (authenticate_request (some "tok")
          ⟨none, some ⟨1, "tok", 0, 0⟩, true⟩ 10 1000 100).outcome
        = .ok ⟨1, "tok", 0, 0⟩ ∧
      (authenticate_request (some "tok")
          ⟨none, some ⟨1, "tok", 0, 0⟩, true⟩ 10 1000 100).world
        = ⟨none, some ⟨1, "tok", 0, 0⟩, true⟩ :=
  validate_durable_fallback_succeeds ⟨1, "tok", 0, 0⟩ 10 1000 100
    (by decide) (by decide)

/-- C8 counterexample: with the durable store down (the read raises) and a
cache miss, the code catches the exception inside `validate_session` and
`authenticate_request` reports the 401 "Invalid or expired session" — the
unauthenticated outcome — instead of any 5xx `AuthStoreUnavailable`. -/
theorem durable_store_down_gives_401 :
    (authenticate_request (some "tok")
          ⟨none, some ⟨1, "tok", 0, 0⟩, false⟩ 10 1000 100).outcome
        = .http401 "Invalid or expired session" ∧
      (validate_session ⟨none, some ⟨1, "tok", 0, 0⟩, false⟩ 10 1000 100).error_caught
        = true := by
  exact ⟨rfl, rfl⟩

/-- C8 amended: whenever the durable read raises during a cache-miss
validation, the exception is swallowed (`error_caught`) and the request is
uniformly rejected with the unauthenticated 401 "Invalid or expired
session"; no infrastructure-failure outcome distinct from the
unauthenticated one exists in the code. -/
theorem durable_store_down_as_unauthenticated (token : String) (w : AuthWorld)
    (now absL idleL : Int) (hc : w.cache = none) (hd : w.durable_up = false) :
    (authenticate_request (some token) w now absL idleL).outcome
        = .http401 "Invalid or expired session" ∧
      (validate_session w now absL idleL).error_caught = true := by
  cases w with
  | mk cache durable up =>
    simp only at hc hd
    subst hc hd
    simp [authenticate_request, validate_session]

/-- Witness for C8 amended. -/
theorem durable_store_down_as_unauthenticated_witness :
    (authenticate_request (some "tok") ⟨none, none, false⟩ 0 0 0).outcome
        = .http401 "Invalid or expired session" ∧
      (validate_session ⟨none, none, false⟩ 0 0 0).error_caught = true :=
  durable_store_down_as_unauthenticated "tok" ⟨none, none, false⟩ 0 0 0 rfl rfl

end UrlShortener
